import Mathlib

/-!
Shallow embedding of the DRA kubelet plugin gRPC client
(`pkg/kubelet/cm/dra/plugin/plugin.go`): connection management
(`getOrCreateGRPCConn`), version negotiation and dispatch
(`NodePrepareResources`, `NodeUnprepareResources`), and the metrics
interceptor (`newMetricsInterceptor`).

Modelling conventions:
- gRPC connections are identified by a `Nat` (object identity).
- Time instants and durations are `Nat`s; a Go `context.Context` is modelled
  by its deadline (`Ctx`).
- The remote plugin process is an oracle `server : apiVersion → AttemptResult ρ`
  giving, for each protocol version client, the `(response, err)` pair and the
  elapsed time that one RPC attempt on that version produces during the call.
- The mutex-guarded sections (`getOrCreateGRPCConn` body and the
  `supportedAPI` store) are modelled as atomic steps; concurrent executions
  are therefore arbitrary sequential interleavings of those steps.
- Every unary RPC attempt goes through the interceptor installed by
  `grpc.WithChainUnaryInterceptor(newMetricsInterceptor(p.name))`, so each
  attempt appends one `MetricObs` with the attempt's status code.
-/

namespace DRA

/-- gRPC status codes (`google.golang.org/grpc/codes`), with the codes this
client inspects as distinguished constructors and the rest by number. -/
inductive Code where
  | ok
  | unimplemented
  | deadlineExceeded
  | unavailable
  | unknownCode
  | otherCode (n : Nat)
deriving DecidableEq, Repr

/-- A Go `error` as seen by this client: either a gRPC status error carrying a
code, or a plain error (such as one built by `errors.New`). -/
inductive GoError where
  | grpcStatus (code : Code) (msg : String)
  | plain (msg : String)
deriving DecidableEq, Repr

/-- The code of `status.Convert(err)` for a non-nil error: the carried code for
a status error, and `codes.Unknown` for any other error. -/
def GoError.statusCode : GoError → Code
  | .grpcStatus c _ => c
  | .plain _ => .unknownCode

/-- `status.Code(err)`: `codes.OK` when the error is nil, otherwise the
converted status code. -/
def statusCodeOpt : Option GoError → Code
  | none => .ok
  | some e => e.statusCode

/-- The test `err != nil && status.Convert(err).Code() == codes.Unimplemented`
guarding the fallback, and (negated) the store of the discovered version. -/
def isUnimplemented : Option GoError → Bool
  | none => false
  | some e => e.statusCode == .unimplemented

/-- `type apiVersion string` from plugin.go. -/
abbrev apiVersion := String

/-- `apiV1alpha4 = apiVersion("v1alpha4")`. -/
def apiV1alpha4 : apiVersion := "v1alpha4"

/-- `apiV1beta1 = apiVersion("v1beta1")`. -/
def apiV1beta1 : apiVersion := "v1beta1"

/-- The zero value `apiVersion("")`: no negotiated version cached yet. -/
def apiUnknown : apiVersion := ""

/-- A Go `context.Context`, abstracted to the deadline it carries (an absolute
time instant), if any. -/
structure Ctx where
  deadline : Option Nat
deriving DecidableEq, Repr

/-- `context.WithTimeout(ctx, t)` evaluated at time `now`: the derived context
carries the tighter of the parent's deadline and `now + t`. -/
def Ctx.withTimeout (c : Ctx) (now t : Nat) : Ctx :=
  { deadline := some (match c.deadline with
      | none => now + t
      | some d => min d (now + t)) }

/-- The mutable per-plugin state of `type Plugin struct` that this client
reads and writes: the lazily created connection and the cached negotiated
version, plus the immutable identification and timeout fields. -/
structure Plugin where
  name : String
  endpoint : String
  conn : Option Nat
  supportedAPI : apiVersion
  clientCallTimeout : Nat
deriving DecidableEq, Repr

/-- Environment choice for one execution of the connection-creation path:
`grpc.Dial` fails, or the one-second `WaitForStateChange` wait expires on the
dialed connection, or the connection `c` becomes ready. -/
inductive DialOutcome where
  | dialError (e : GoError)
  | waitTimeout (c : Nat)
  | connected (c : Nat)
deriving DecidableEq, Repr

/-- The error built by `errors.New` when `WaitForStateChange` reports that the
bounded wait expired. -/
def waitTimeoutErr : GoError :=
  .plain "timed out waiting for gRPC connection to be ready"

instance {ε α : Type} [DecidableEq ε] [DecidableEq α] : DecidableEq (Except ε α)
  | .ok a, .ok b => if h : a = b then .isTrue (by rw [h]) else .isFalse (by simp [h])
  | .ok _, .error _ => .isFalse (by simp)
  | .error _, .ok _ => .isFalse (by simp)
  | .error a, .error b => if h : a = b then .isTrue (by rw [h]) else .isFalse (by simp [h])

/-- What one execution of `getOrCreateGRPCConn` returns to its caller:
the `(conn, supportedAPI, error)` triple, plus whether this execution invoked
`grpc.Dial` (used to count dial attempts). -/
structure ConnResult where
  result : Except GoError (Nat × apiVersion)
  dialed : Bool
deriving DecidableEq, Repr

/-- The connection a `ConnResult` hands to the caller, if any. -/
def ConnResult.connOf (r : ConnResult) : Option Nat :=
  match r.result with
  | .ok (c, _) => some c
  | .error _ => none

/-- `func (p *Plugin) getOrCreateGRPCConn() (*grpc.ClientConn, apiVersion, error)`.
The whole body runs under `p.mutex`; it is one atomic step here. If `p.conn`
is set it is returned together with `p.supportedAPI` and no dial happens.
Otherwise the endpoint is dialed: on dial error or on the bounded wait
expiring the error is returned and `p.conn` stays unset; on success the
connection is stored in `p.conn` before the lock is released and is returned
with the empty `apiVersion`. -/
def getOrCreateGRPCConn (p : Plugin) (dial : DialOutcome) : ConnResult × Plugin :=
  match p.conn with
  | some c => (⟨.ok (c, p.supportedAPI), false⟩, p)
  | none =>
    match dial with
    | .dialError e => (⟨.error e, true⟩, p)
    | .waitTimeout _ => (⟨.error waitTimeoutErr, true⟩, p)
    | .connected c => (⟨.ok (c, apiUnknown), true⟩, { p with conn := some c })

/-- The `(response, err)` pair one RPC attempt returns, together with the wall
time the attempt took (observed by the metrics interceptor). -/
structure AttemptResult (ρ : Type) where
  response : Option ρ
  err : Option GoError
  elapsed : Nat
deriving DecidableEq, Repr

/-- One RPC attempt as issued on the wire: the protocol version of the client
stub used, the connection it went over, and the call-scoped context. -/
structure RpcAttempt where
  version : apiVersion
  conn : Nat
  ctx : Ctx
deriving DecidableEq, Repr

/-- One observation recorded by `newMetricsInterceptor`: plugin name, gRPC
method string, status classification of the attempt's outcome
(`status.Code(err).String()`), and the elapsed duration. -/
structure MetricObs where
  pluginName : String
  method : String
  status : Code
  seconds : Nat
deriving DecidableEq, Repr

/-- What one dispatch operation returns and emits: the `(response, err)` pair
handed to the caller, the RPC attempts issued on the wire in order, and the
metrics observations recorded by the interceptor in order. -/
structure CallOutcome (ρ : Type) where
  response : Option ρ
  err : Option GoError
  attempts : List RpcAttempt
  metrics : List MetricObs
deriving DecidableEq, Repr

/-- The shared body of `NodePrepareResources` and `NodeUnprepareResources`
(the two functions are textually identical up to the request/response types
and client stubs). Obtains the connection and cached version via
`getOrCreateGRPCConn`, returning the error unchanged on failure; derives the
call context by `context.WithTimeout(ctx, p.clientCallTimeout)` at time `now`
(after connection establishment); then switches on the returned version:
a confirmed version is dispatched directly, and the empty version probes
`apiV1beta1` first, falls back to `apiV1alpha4` exactly when the probe failed
with `codes.Unimplemented`, and stores the discovered version under the mutex
exactly when the final outcome is not `codes.Unimplemented`. `method v` is the
full gRPC method string of the version-`v` client stub; each attempt records
one metrics observation. -/
def nodeCall {ρ : Type} (p : Plugin) (callerCtx : Ctx) (now : Nat)
    (dial : DialOutcome) (method : apiVersion → String)
    (server : apiVersion → AttemptResult ρ) : CallOutcome ρ × Plugin :=
  match getOrCreateGRPCConn p dial with
  | (⟨.error e, _⟩, p1) =>
    (⟨none, some e, [], []⟩, p1)
  | (⟨.ok (conn, supportedAPI), _⟩, p1) =>
    let ctx := Ctx.withTimeout callerCtx now p1.clientCallTimeout
    if supportedAPI = apiV1beta1 then
      let r := server apiV1beta1
      (⟨r.response, r.err, [⟨apiV1beta1, conn, ctx⟩],
        [⟨p1.name, method apiV1beta1, statusCodeOpt r.err, r.elapsed⟩]⟩, p1)
    else if supportedAPI = apiV1alpha4 then
      let r := server apiV1alpha4
      (⟨r.response, r.err, [⟨apiV1alpha4, conn, ctx⟩],
        [⟨p1.name, method apiV1alpha4, statusCodeOpt r.err, r.elapsed⟩]⟩, p1)
    else
      let r1 := server apiV1beta1
      let a1 : RpcAttempt := ⟨apiV1beta1, conn, ctx⟩
      let m1 : MetricObs := ⟨p1.name, method apiV1beta1, statusCodeOpt r1.err, r1.elapsed⟩
      let step2 :=
        if isUnimplemented r1.err then
          let r2 := server apiV1alpha4
          (apiV1alpha4, r2, [a1, (⟨apiV1alpha4, conn, ctx⟩ : RpcAttempt)],
           [m1, (⟨p1.name, method apiV1alpha4, statusCodeOpt r2.err, r2.elapsed⟩ : MetricObs)])
        else
          (apiV1beta1, r1, [a1], [m1])
      match step2 with
      | (vF, rF, atts, ms) =>
        let p2 := if isUnimplemented rF.err then p1 else { p1 with supportedAPI := vF }
        (⟨rF.response, rF.err, atts, ms⟩, p2)

/-- `func (p *Plugin) NodePrepareResources(ctx, req, opts...)`. -/
def NodePrepareResources {ρ : Type} (p : Plugin) (callerCtx : Ctx) (now : Nat)
    (dial : DialOutcome) (method : apiVersion → String)
    (server : apiVersion → AttemptResult ρ) : CallOutcome ρ × Plugin :=
  nodeCall p callerCtx now dial method server

/-- `func (p *Plugin) NodeUnprepareResources(ctx, req, opts...)`. -/
def NodeUnprepareResources {ρ : Type} (p : Plugin) (callerCtx : Ctx) (now : Nat)
    (dial : DialOutcome) (method : apiVersion → String)
    (server : apiVersion → AttemptResult ρ) : CallOutcome ρ × Plugin :=
  nodeCall p callerCtx now dial method server

/-- A sequence of executions of the `getOrCreateGRPCConn` critical section on
one Plugin. Since the whole body runs under `p.mutex`, any number of
concurrent callers execute it in some sequential order; the list of
`DialOutcome`s supplies the environment's answer for each execution that
reaches `grpc.Dial`. Returns each caller's result, in order, and the final
Plugin state. -/
def runConns (p : Plugin) : List DialOutcome → List ConnResult × Plugin
  | [] => ([], p)
  | d :: ds =>
    let s := getOrCreateGRPCConn p d
    let t := runConns s.2 ds
    (s.1 :: t.1, t.2)

/-- How many of the results came from an execution that invoked `grpc.Dial`. -/
def dialCount (rs : List ConnResult) : Nat := (rs.filter (·.dialed)).length

/-- Which of the two dispatch operations a caller invokes. -/
inductive OpKind where
  | prepare
  | unprepare
deriving DecidableEq, Repr

/-- One caller's invocation of a dispatch operation, with everything the
environment chooses for it: the caller's context, the time at which the call
timeout is derived, the dial outcome should this invocation create the
connection, the method strings of the client stubs, and the remote side's
behaviour for each version. -/
structure OpInput (ρ : Type) where
  kind : OpKind
  callerCtx : Ctx
  now : Nat
  dial : DialOutcome
  method : apiVersion → String
  server : apiVersion → AttemptResult ρ

/-- The Plugin state after one dispatch operation. -/
def stepOp {ρ : Type} (p : Plugin) (i : OpInput ρ) : Plugin :=
  match i.kind with
  | .prepare => (NodePrepareResources p i.callerCtx i.now i.dial i.method i.server).2
  | .unprepare => (NodeUnprepareResources p i.callerCtx i.now i.dial i.method i.server).2

/-- The Plugin state after a sequence of dispatch operations. -/
def runOps {ρ : Type} (p : Plugin) (l : List (OpInput ρ)) : Plugin :=
  l.foldl stepOp p

/-- States of a registered Plugin reachable by this client: a negotiated
version is only ever cached after a connection exists, and nothing in this
client unsets `p.conn`. -/
def Plugin.inv (p : Plugin) : Prop :=
  (p.supportedAPI = apiUnknown ∨ p.supportedAPI = apiV1alpha4 ∨ p.supportedAPI = apiV1beta1)
  ∧ (p.supportedAPI = apiUnknown ∨ p.conn ≠ none)

instance (p : Plugin) : Decidable p.inv :=
  inferInstanceAs (Decidable (_ ∧ _))

/-- A Plugin as it sits in the registry before the first call: the mutable
fields hold their zero values (`conn == nil`, `supportedAPI == ""`). -/
def freshPlugin (name endpoint : String) (clientCallTimeout : Nat) : Plugin :=
  { name := name, endpoint := endpoint, conn := none,
    supportedAPI := apiUnknown, clientCallTimeout := clientCallTimeout }

/-! Helper lemmas shared by the claim theorems. -/

theorem apiUnknown_ne_v1beta1 : apiUnknown ≠ apiV1beta1 := by decide

theorem apiUnknown_ne_v1alpha4 : apiUnknown ≠ apiV1alpha4 := by decide

theorem apiV1alpha4_ne_v1beta1 : apiV1alpha4 ≠ apiV1beta1 := by decide

theorem statusCodeOpt_none : statusCodeOpt none = Code.ok := rfl

theorem statusCodeOpt_of_isUnimplemented {e : Option GoError}
    (h : isUnimplemented e = true) : statusCodeOpt e = Code.unimplemented := by
  cases e with
  | none => simp [isUnimplemented] at h
  | some e => simpa [isUnimplemented, statusCodeOpt] using h

/-- Claim C9: if the Plugin's connection is already set, `getOrCreateGRPCConn`
returns that same connection immediately with no dial and no state change;
consequently a second call after any successful call hands back the identical
connection object (the operation is idempotent once a connection exists). -/
theorem getOrCreateGRPCConn_idempotent (p : Plugin) (c : Nat) (d d' : DialOutcome) :
    (p.conn = some c →
      getOrCreateGRPCConn p d = (⟨.ok (c, p.supportedAPI), false⟩, p)) ∧
    ((getOrCreateGRPCConn p d).1.connOf = some c →
      getOrCreateGRPCConn (getOrCreateGRPCConn p d).2 d'
        = (⟨.ok (c, (getOrCreateGRPCConn p d).2.supportedAPI), false⟩,
           (getOrCreateGRPCConn p d).2)) := by
  constructor
  · intro h
    simp [getOrCreateGRPCConn, h]
  · intro h
    rcases hc : p.conn with _ | c0
    · rcases d with e | c1 | c1 <;>
        simp [getOrCreateGRPCConn, hc, ConnResult.connOf] at h ⊢ <;>
        simp [h]
    · simp [getOrCreateGRPCConn, hc, ConnResult.connOf] at h ⊢
      simp [h]

/-- Claim C10: the creation path of `getOrCreateGRPCConn` returns the empty
`apiVersion` (Unknown) regardless of the value stored in `p.supportedAPI`;
the cached version is returned only on the reuse path; hence the first
dispatch after a fresh connection establishment takes the probing branch
(its first wire attempt uses `apiV1beta1`). -/
theorem fresh_conn_returns_unknown_version {ρ : Type} (p : Plugin) (c : Nat)
    (d : DialOutcome) (ctx : Ctx) (now : Nat) (method : apiVersion → String)
    (server : apiVersion → AttemptResult ρ) :
    (p.conn = none →
      getOrCreateGRPCConn p (.connected c)
        = (⟨.ok (c, apiUnknown), true⟩, { p with conn := some c })) ∧
    (p.conn = some c →
      (getOrCreateGRPCConn p d).1.result = .ok (c, p.supportedAPI)) ∧
    (p.conn = none →
      ((nodeCall p ctx now (.connected c) method server).1.attempts.map RpcAttempt.version
          = [apiV1beta1] ∨
       (nodeCall p ctx now (.connected c) method server).1.attempts.map RpcAttempt.version
          = [apiV1beta1, apiV1alpha4])) := by
  refine ⟨fun h => by simp [getOrCreateGRPCConn, h],
          fun h => by simp [getOrCreateGRPCConn, h], fun h => ?_⟩
  simp only [nodeCall, getOrCreateGRPCConn, h]
  by_cases hu : isUnimplemented (server apiV1beta1).err
  · right
    simp [apiUnknown_ne_v1beta1, apiUnknown_ne_v1alpha4, hu]
  · left
    simp [apiUnknown_ne_v1beta1, apiUnknown_ne_v1alpha4, hu]

/-- Claim C6: on dial failure or on expiry of the bounded wait,
`getOrCreateGRPCConn` returns the error and leaves `p.conn` unset (no partial
connection is stored); a dispatch operation that receives such a connection
error returns it to the caller unchanged, issues no RPC attempt, records no
metrics, and leaves the Plugin unchanged, so a later call starts connection
establishment from scratch. -/
theorem conn_error_returned_unchanged {ρ₁ ρ₂ : Type} (p : Plugin) (e : GoError)
    (c : Nat) (ctx : Ctx) (now : Nat) (method : apiVersion → String)
    (server₁ : apiVersion → AttemptResult ρ₁) (server₂ : apiVersion → AttemptResult ρ₂)
    (hcold : p.conn = none) :
    getOrCreateGRPCConn p (.dialError e) = (⟨.error e, true⟩, p) ∧
    getOrCreateGRPCConn p (.waitTimeout c) = (⟨.error waitTimeoutErr, true⟩, p) ∧
    (∀ d : DialOutcome, ∀ e' : GoError,
      (getOrCreateGRPCConn p d).1.result = .error e' →
      NodePrepareResources p ctx now d method server₁ = (⟨none, some e', [], []⟩, p) ∧
      NodeUnprepareResources p ctx now d method server₂ = (⟨none, some e', [], []⟩, p)) := by
  refine ⟨by simp [getOrCreateGRPCConn, hcold], by simp [getOrCreateGRPCConn, hcold],
          fun d e' herr => ?_⟩
  rcases d with e0 | c0 | c0 <;>
    simp [getOrCreateGRPCConn, hcold] at herr <;>
    simp [NodePrepareResources, NodeUnprepareResources, nodeCall,
          getOrCreateGRPCConn, hcold, herr]

/-- Claim C1: on a Plugin whose cached version is Unknown,
`NodePrepareResources` and `NodeUnprepareResources` first attempt the call on
`apiV1beta1`; exactly when that attempt fails with the unimplemented-method
status, the same logical call is retried once on `apiV1alpha4` over the same
connection and the same already-derived timeout context, and the caller
receives the `apiV1alpha4` attempt's response and error. -/
theorem unknown_version_fallback_dispatch {ρ₁ ρ₂ : Type} (p : Plugin) (c : Nat)
    (ctx : Ctx) (now : Nat) (dial : DialOutcome) (method : apiVersion → String)
    (server₁ : apiVersion → AttemptResult ρ₁) (server₂ : apiVersion → AttemptResult ρ₂)
    (hconn : p.conn = some c) (hapi : p.supportedAPI = apiUnknown) :
    (isUnimplemented (server₁ apiV1beta1).err = false →
      (NodePrepareResources p ctx now dial method server₁).1.attempts
          = [⟨apiV1beta1, c, Ctx.withTimeout ctx now p.clientCallTimeout⟩] ∧
      (NodePrepareResources p ctx now dial method server₁).1.response
          = (server₁ apiV1beta1).response ∧
      (NodePrepareResources p ctx now dial method server₁).1.err
          = (server₁ apiV1beta1).err) ∧
    (isUnimplemented (server₁ apiV1beta1).err = true →
      (NodePrepareResources p ctx now dial method server₁).1.attempts
          = [⟨apiV1beta1, c, Ctx.withTimeout ctx now p.clientCallTimeout⟩,
             ⟨apiV1alpha4, c, Ctx.withTimeout ctx now p.clientCallTimeout⟩] ∧
      (NodePrepareResources p ctx now dial method server₁).1.response
          = (server₁ apiV1alpha4).response ∧
      (NodePrepareResources p ctx now dial method server₁).1.err
          = (server₁ apiV1alpha4).err) ∧
    (isUnimplemented (server₂ apiV1beta1).err = false →
      (NodeUnprepareResources p ctx now dial method server₂).1.attempts
          = [⟨apiV1beta1, c, Ctx.withTimeout ctx now p.clientCallTimeout⟩] ∧
      (NodeUnprepareResources p ctx now dial method server₂).1.response
          = (server₂ apiV1beta1).response ∧
      (NodeUnprepareResources p ctx now dial method server₂).1.err
          = (server₂ apiV1beta1).err) ∧
    (isUnimplemented (server₂ apiV1beta1).err = true →
      (NodeUnprepareResources p ctx now dial method server₂).1.attempts
          = [⟨apiV1beta1, c, Ctx.withTimeout ctx now p.clientCallTimeout⟩,
             ⟨apiV1alpha4, c, Ctx.withTimeout ctx now p.clientCallTimeout⟩] ∧
      (NodeUnprepareResources p ctx now dial method server₂).1.response
          = (server₂ apiV1alpha4).response ∧
      (NodeUnprepareResources p ctx now dial method server₂).1.err
          = (server₂ apiV1alpha4).err) := by
  refine ⟨fun h => ?_, fun h => ?_, fun h => ?_, fun h => ?_⟩ <;>
    simp [NodePrepareResources, NodeUnprepareResources, nodeCall, getOrCreateGRPCConn,
          hconn, hapi, apiUnknown_ne_v1beta1, apiUnknown_ne_v1alpha4, h]

/-- Claim C2: on a dispatch in Unknown state, the cached `supportedAPI` is
written exactly when the final attempt's outcome is not the
unimplemented-method status, and it is set to the version that produced that
outcome; when both the `apiV1beta1` attempt and the `apiV1alpha4` fallback
return unimplemented, the cache stays Unknown and the final unimplemented
error is returned to the caller. -/
theorem unknown_version_settling {ρ : Type} (p : Plugin) (c : Nat)
    (ctx : Ctx) (now : Nat) (dial : DialOutcome) (method : apiVersion → String)
    (server : apiVersion → AttemptResult ρ)
    (hconn : p.conn = some c) (hapi : p.supportedAPI = apiUnknown) :
    (isUnimplemented (server apiV1beta1).err = false →
      (nodeCall p ctx now dial method server).2.supportedAPI = apiV1beta1 ∧
      (nodeCall p ctx now dial method server).1.err = (server apiV1beta1).err) ∧
    (isUnimplemented (server apiV1beta1).err = true →
      isUnimplemented (server apiV1alpha4).err = false →
      (nodeCall p ctx now dial method server).2.supportedAPI = apiV1alpha4 ∧
      (nodeCall p ctx now dial method server).1.err = (server apiV1alpha4).err) ∧
    (isUnimplemented (server apiV1beta1).err = true →
      isUnimplemented (server apiV1alpha4).err = true →
      (nodeCall p ctx now dial method server).2.supportedAPI = apiUnknown ∧
      (nodeCall p ctx now dial method server).1.err = (server apiV1alpha4).err ∧
      isUnimplemented (nodeCall p ctx now dial method server).1.err = true) := by
  refine ⟨fun h1 => ?_, fun h1 h2 => ?_, fun h1 h2 => ?_⟩ <;>
    simp [nodeCall, getOrCreateGRPCConn, hconn, hapi,
          apiUnknown_ne_v1beta1, apiUnknown_ne_v1alpha4, h1] <;>
    simp [h2, hapi]

/-- Claim C3: on a Plugin whose cached version is already confirmed as
`apiV1beta1` or `apiV1alpha4`, `NodePrepareResources` and
`NodeUnprepareResources` issue the RPC directly on that version exactly once,
attempt the other version under no outcome, and leave the Plugin unchanged. -/
theorem confirmed_version_direct_dispatch {ρ₁ ρ₂ : Type} (p : Plugin) (c : Nat)
    (ctx : Ctx) (now : Nat) (dial : DialOutcome) (method : apiVersion → String)
    (server₁ : apiVersion → AttemptResult ρ₁) (server₂ : apiVersion → AttemptResult ρ₂)
    (hconn : p.conn = some c) :
    (p.supportedAPI = apiV1beta1 →
      NodePrepareResources p ctx now dial method server₁
        = (⟨(server₁ apiV1beta1).response, (server₁ apiV1beta1).err,
            [⟨apiV1beta1, c, Ctx.withTimeout ctx now p.clientCallTimeout⟩],
            [⟨p.name, method apiV1beta1, statusCodeOpt (server₁ apiV1beta1).err,
              (server₁ apiV1beta1).elapsed⟩]⟩, p) ∧
      NodeUnprepareResources p ctx now dial method server₂
        = (⟨(server₂ apiV1beta1).response, (server₂ apiV1beta1).err,
            [⟨apiV1beta1, c, Ctx.withTimeout ctx now p.clientCallTimeout⟩],
            [⟨p.name, method apiV1beta1, statusCodeOpt (server₂ apiV1beta1).err,
              (server₂ apiV1beta1).elapsed⟩]⟩, p)) ∧
    (p.supportedAPI = apiV1alpha4 →
      NodePrepareResources p ctx now dial method server₁
        = (⟨(server₁ apiV1alpha4).response, (server₁ apiV1alpha4).err,
            [⟨apiV1alpha4, c, Ctx.withTimeout ctx now p.clientCallTimeout⟩],
            [⟨p.name, method apiV1alpha4, statusCodeOpt (server₁ apiV1alpha4).err,
              (server₁ apiV1alpha4).elapsed⟩]⟩, p) ∧
      NodeUnprepareResources p ctx now dial method server₂
        = (⟨(server₂ apiV1alpha4).response, (server₂ apiV1alpha4).err,
            [⟨apiV1alpha4, c, Ctx.withTimeout ctx now p.clientCallTimeout⟩],
            [⟨p.name, method apiV1alpha4, statusCodeOpt (server₂ apiV1alpha4).err,
              (server₂ apiV1alpha4).elapsed⟩]⟩, p)) := by
  refine ⟨fun h => ?_, fun h => ?_⟩ <;>
    simp [NodePrepareResources, NodeUnprepareResources, nodeCall, getOrCreateGRPCConn,
          hconn, h, apiV1alpha4_ne_v1beta1]

/-- Claim C7: every RPC attempt of a dispatched call carries the context
derived by `context.WithTimeout(ctx, p.clientCallTimeout)` at the time `now`
reached after connection establishment, whose deadline is the tighter of the
caller context's own deadline and `now + clientCallTimeout`. -/
theorem call_scoped_deadline {ρ : Type} (p : Plugin) (ctx : Ctx) (now : Nat)
    (dial : DialOutcome) (method : apiVersion → String)
    (server : apiVersion → AttemptResult ρ) :
    ∀ a ∈ (nodeCall p ctx now dial method server).1.attempts,
      a.ctx = Ctx.withTimeout ctx now p.clientCallTimeout ∧
      a.ctx.deadline = some (match ctx.deadline with
        | none => now + p.clientCallTimeout
        | some d => min d (now + p.clientCallTimeout)) := by
  have key : ∀ a ∈ (nodeCall p ctx now dial method server).1.attempts,
      a.ctx = Ctx.withTimeout ctx now p.clientCallTimeout := by
    intro a ha
    rcases hc : p.conn with _ | c
    · rcases dial with e | c0 | c0
      · simp [nodeCall, getOrCreateGRPCConn, hc] at ha
      · simp [nodeCall, getOrCreateGRPCConn, hc] at ha
      · by_cases hu : isUnimplemented (server apiV1beta1).err
        · simp [nodeCall, getOrCreateGRPCConn, hc, apiUnknown_ne_v1beta1,
                apiUnknown_ne_v1alpha4, hu] at ha
          rcases ha with h | h <;> simp [h]
        · simp [nodeCall, getOrCreateGRPCConn, hc, apiUnknown_ne_v1beta1,
                apiUnknown_ne_v1alpha4, hu] at ha
          simp [ha]
    · by_cases hb : p.supportedAPI = apiV1beta1
      · simp [nodeCall, getOrCreateGRPCConn, hc, hb] at ha
        simp [ha]
      · by_cases hA : p.supportedAPI = apiV1alpha4
        · simp [nodeCall, getOrCreateGRPCConn, hc, hb, hA, apiV1alpha4_ne_v1beta1] at ha
          simp [ha]
        · by_cases hu : isUnimplemented (server apiV1beta1).err
          · simp [nodeCall, getOrCreateGRPCConn, hc, hb, hA, hu] at ha
            rcases ha with h | h <;> simp [h]
          · simp [nodeCall, getOrCreateGRPCConn, hc, hb, hA, hu] at ha
            simp [ha]
  intro a ha
  refine ⟨key a ha, ?_⟩
  rw [key a ha]
  rcases ctx with ⟨_ | d⟩ <;> rfl

/-- Claim C8: every RPC attempt, including an `apiV1beta1` attempt discarded
by fallback, records exactly one metrics observation, labeled with the plugin
name, the attempted method, and the status classification of that attempt's
outcome; a fallback run of unimplemented-on-`apiV1beta1` then
success-on-`apiV1alpha4` therefore records exactly two observations with
different status labels. -/
theorem metrics_observation_per_attempt {ρ : Type} (p : Plugin) (ctx : Ctx)
    (now : Nat) (dial : DialOutcome) (method : apiVersion → String)
    (server : apiVersion → AttemptResult ρ) :
    ((nodeCall p ctx now dial method server).1.metrics
      = (nodeCall p ctx now dial method server).1.attempts.map (fun a =>
          ⟨p.name, method a.version, statusCodeOpt (server a.version).err,
           (server a.version).elapsed⟩)) ∧
    (∀ c : Nat, p.conn = some c → p.supportedAPI = apiUnknown →
      isUnimplemented (server apiV1beta1).err = true →
      (server apiV1alpha4).err = none →
      (nodeCall p ctx now dial method server).1.metrics
        = [⟨p.name, method apiV1beta1, Code.unimplemented, (server apiV1beta1).elapsed⟩,
           ⟨p.name, method apiV1alpha4, Code.ok, (server apiV1alpha4).elapsed⟩]) := by
  constructor
  · rcases hc : p.conn with _ | c
    · rcases dial with e | c0 | c0
      · simp [nodeCall, getOrCreateGRPCConn, hc]
      · simp [nodeCall, getOrCreateGRPCConn, hc]
      · by_cases hu : isUnimplemented (server apiV1beta1).err <;>
          simp [nodeCall, getOrCreateGRPCConn, hc, apiUnknown_ne_v1beta1,
                apiUnknown_ne_v1alpha4, hu]
    · by_cases hb : p.supportedAPI = apiV1beta1
      · simp [nodeCall, getOrCreateGRPCConn, hc, hb]
      · by_cases hA : p.supportedAPI = apiV1alpha4
        · simp [nodeCall, getOrCreateGRPCConn, hc, hb, hA, apiV1alpha4_ne_v1beta1]
        · by_cases hu : isUnimplemented (server apiV1beta1).err <;>
            simp [nodeCall, getOrCreateGRPCConn, hc, hb, hA, hu]
  · intro c hconn hapi hu ha4
    simp [nodeCall, getOrCreateGRPCConn, hconn, hapi, apiUnknown_ne_v1beta1,
          apiUnknown_ne_v1alpha4, hu, ha4, statusCodeOpt_of_isUnimplemented hu,
          statusCodeOpt_none]

theorem dialCount_nil : dialCount [] = 0 := rfl

theorem dialCount_cons (r : ConnResult) (rs : List ConnResult) :
    dialCount (r :: rs) = (if r.dialed then 1 else 0) + dialCount rs := by
  by_cases h : r.dialed <;> simp [dialCount, List.filter_cons, h, Nat.add_comm]

theorem dialCount_eq_zero {rs : List ConnResult}
    (h : ∀ r ∈ rs, r.dialed = false) : dialCount rs = 0 := by
  induction rs with
  | nil => rfl
  | cons r rs ih =>
    rw [dialCount_cons, h r (List.mem_cons_self r rs), if_neg (by simp),
        Nat.zero_add]
    exact ih fun r' hr' => h r' (List.mem_cons_of_mem r hr')

theorem runConns_warm (p : Plugin) (c : Nat) (ds : List DialOutcome)
    (h : p.conn = some c) :
    (∀ r ∈ (runConns p ds).1, r.dialed = false ∧ r.connOf = some c) ∧
    (runConns p ds).2 = p := by
  induction ds with
  | nil => exact ⟨by simp [runConns], rfl⟩
  | cons d ds ih =>
    have hstep : runConns p (d :: ds)
        = ((⟨.ok (c, p.supportedAPI), false⟩ : ConnResult) :: (runConns p ds).1,
           (runConns p ds).2) := by
      simp [runConns, getOrCreateGRPCConn, h]
    rw [hstep]
    refine ⟨fun r hr => ?_, ih.2⟩
    rcases List.mem_cons.mp hr with h1 | h1
    · subst h1
      exact ⟨rfl, rfl⟩
    · exact ih.1 r h1

/-- Claim C4: the `getOrCreateGRPCConn` critical section is serialized by the
Plugin's mutex and stores the connection before releasing the lock, so when N
concurrent callers hit a cold Plugin and the first execution's dial succeeds,
exactly one of the N executions dials, every execution hands back the same
connection, and the connection stays stored on the Plugin. -/
theorem cold_plugin_single_dial (p : Plugin) (c : Nat) (ds : List DialOutcome)
    (hcold : p.conn = none) :
    dialCount (runConns p (DialOutcome.connected c :: ds)).1 = 1 ∧
    (∀ r ∈ (runConns p (DialOutcome.connected c :: ds)).1, r.connOf = some c) ∧
    (runConns p (DialOutcome.connected c :: ds)).2.conn = some c := by
  have hstep : runConns p (DialOutcome.connected c :: ds)
      = ((⟨.ok (c, apiUnknown), true⟩ : ConnResult)
           :: (runConns { p with conn := some c } ds).1,
         (runConns { p with conn := some c } ds).2) := by
    simp [runConns, getOrCreateGRPCConn, hcold]
  have hwarm := runConns_warm { p with conn := some c } c ds rfl
  rw [hstep]
  refine ⟨?_, fun r hr => ?_, ?_⟩
  · rw [dialCount_cons, if_pos rfl, dialCount_eq_zero fun r hr => (hwarm.1 r hr).1]
  · rcases List.mem_cons.mp hr with h1 | h1
    · subst h1
      rfl
    · exact (hwarm.1 r h1).2
  · rw [hwarm.2]

theorem nodeCall_version_step {ρ : Type} (p : Plugin) (ctx : Ctx) (now : Nat)
    (dial : DialOutcome) (method : apiVersion → String)
    (server : apiVersion → AttemptResult ρ) (hinv : p.inv) :
    ((nodeCall p ctx now dial method server).2.supportedAPI = p.supportedAPI ∨
      (p.supportedAPI = apiUnknown ∧
        ((nodeCall p ctx now dial method server).2.supportedAPI = apiV1alpha4 ∨
         (nodeCall p ctx now dial method server).2.supportedAPI = apiV1beta1))) ∧
    (nodeCall p ctx now dial method server).2.inv := by
  rcases hinv with ⟨hdom, hcs⟩
  rcases hc : p.conn with _ | c
  · have hapi : p.supportedAPI = apiUnknown := by
      rcases hcs with h | h
      · exact h
      · exact absurd hc h
    rcases dial with e | c0 | c0
    · have h2 : (nodeCall p ctx now (.dialError e) method server).2 = p := by
        simp [nodeCall, getOrCreateGRPCConn, hc]
      rw [h2]
      exact ⟨Or.inl rfl, hdom, hcs⟩
    · have h2 : (nodeCall p ctx now (.waitTimeout c0) method server).2 = p := by
        simp [nodeCall, getOrCreateGRPCConn, hc]
      rw [h2]
      exact ⟨Or.inl rfl, hdom, hcs⟩
    · by_cases hu : isUnimplemented (server apiV1beta1).err
      · by_cases hs : isUnimplemented (server apiV1alpha4).err
        · have h2 : (nodeCall p ctx now (.connected c0) method server).2
              = { p with conn := some c0 } := by
            simp [nodeCall, getOrCreateGRPCConn, hc, apiUnknown_ne_v1beta1,
                  apiUnknown_ne_v1alpha4, hu, hs]
          rw [h2]
          exact ⟨Or.inl rfl, hdom, Or.inr (by simp)⟩
        · have h2 : (nodeCall p ctx now (.connected c0) method server).2
              = { p with conn := some c0, supportedAPI := apiV1alpha4 } := by
            simp [nodeCall, getOrCreateGRPCConn, hc, apiUnknown_ne_v1beta1,
                  apiUnknown_ne_v1alpha4, hu, hs]
          rw [h2]
          exact ⟨Or.inr ⟨hapi, Or.inl rfl⟩, Or.inr (Or.inl rfl), Or.inr (by simp)⟩
      · have h2 : (nodeCall p ctx now (.connected c0) method server).2
            = { p with conn := some c0, supportedAPI := apiV1beta1 } := by
          simp [nodeCall, getOrCreateGRPCConn, hc, apiUnknown_ne_v1beta1,
                apiUnknown_ne_v1alpha4, hu]
        rw [h2]
        exact ⟨Or.inr ⟨hapi, Or.inr rfl⟩, Or.inr (Or.inr rfl), Or.inr (by simp)⟩
  · by_cases hb : p.supportedAPI = apiV1beta1
    · have h2 : (nodeCall p ctx now dial method server).2 = p := by
        simp [nodeCall, getOrCreateGRPCConn, hc, hb]
      rw [h2]
      exact ⟨Or.inl rfl, hdom, hcs⟩
    · by_cases hA : p.supportedAPI = apiV1alpha4
      · have h2 : (nodeCall p ctx now dial method server).2 = p := by
          simp [nodeCall, getOrCreateGRPCConn, hc, hb, hA, apiV1alpha4_ne_v1beta1]
        rw [h2]
        exact ⟨Or.inl rfl, hdom, hcs⟩
      · have hapi : p.supportedAPI = apiUnknown := by
          rcases hdom with h | h | h
          · exact h
          · exact absurd h hA
          · exact absurd h hb
        by_cases hu : isUnimplemented (server apiV1beta1).err
        · by_cases hs : isUnimplemented (server apiV1alpha4).err
          · have h2 : (nodeCall p ctx now dial method server).2 = p := by
              simp [nodeCall, getOrCreateGRPCConn, hc, hb, hA, hu, hs]
            rw [h2]
            exact ⟨Or.inl rfl, hdom, hcs⟩
          · have h2 : (nodeCall p ctx now dial method server).2
                = { p with supportedAPI := apiV1alpha4 } := by
              simp [nodeCall, getOrCreateGRPCConn, hc, hb, hA, hu, hs]
            rw [h2]
            exact ⟨Or.inr ⟨hapi, Or.inl rfl⟩, Or.inr (Or.inl rfl), Or.inr (by simp [hc])⟩
        · have h2 : (nodeCall p ctx now dial method server).2
              = { p with supportedAPI := apiV1beta1 } := by
            simp [nodeCall, getOrCreateGRPCConn, hc, hb, hA, hu]
          rw [h2]
          exact ⟨Or.inr ⟨hapi, Or.inr rfl⟩, Or.inr (Or.inr rfl), Or.inr (by simp [hc])⟩

theorem stepOp_version_step {ρ : Type} (p : Plugin) (i : OpInput ρ) (hinv : p.inv) :
    ((stepOp p i).supportedAPI = p.supportedAPI ∨
      (p.supportedAPI = apiUnknown ∧
        ((stepOp p i).supportedAPI = apiV1alpha4 ∨
         (stepOp p i).supportedAPI = apiV1beta1))) ∧
    (stepOp p i).inv := by
  rcases i with ⟨k, cctx, now, dial, method, server⟩
  cases k with
  | prepare =>
    exact nodeCall_version_step p cctx now dial method server hinv
  | unprepare =>
    exact nodeCall_version_step p cctx now dial method server hinv

theorem runOps_confirmed_fixed {ρ : Type} (p : Plugin) (l : List (OpInput ρ))
    (hinv : p.inv) (hconf : p.supportedAPI ≠ apiUnknown) :
    (runOps p l).supportedAPI = p.supportedAPI := by
  induction l generalizing p with
  | nil => rfl
  | cons i l ih =>
    have hs := stepOp_version_step p i hinv
    have heq : (stepOp p i).supportedAPI = p.supportedAPI := by
      rcases hs.1 with h | ⟨h, _⟩
      · exact h
      · exact absurd h hconf
    have hrun : runOps p (i :: l) = runOps (stepOp p i) l := rfl
    rw [hrun, ih (stepOp p i) hs.2 (heq ▸ hconf)]
    exact heq

/-- Claim C5: a dispatch operation moves the cached `supportedAPI` only from
Unknown to `apiV1alpha4` or from Unknown to `apiV1beta1`; it never moves a
confirmed version back to Unknown and never switches directly between the two
confirmed versions, and along any sequence of dispatch operations a confirmed
version stays fixed (the reachable-state invariant `Plugin.inv` is
preserved). -/
theorem supportedAPI_monotone {ρ : Type} (p : Plugin) (i : OpInput ρ)
    (l : List (OpInput ρ)) (hinv : p.inv) :
    ((stepOp p i).supportedAPI = p.supportedAPI ∨
      (p.supportedAPI = apiUnknown ∧
        ((stepOp p i).supportedAPI = apiV1alpha4 ∨
         (stepOp p i).supportedAPI = apiV1beta1))) ∧
    (stepOp p i).inv ∧
    (p.supportedAPI ≠ apiUnknown → (runOps p l).supportedAPI = p.supportedAPI) := by
  exact ⟨(stepOp_version_step p i hinv).1, (stepOp_version_step p i hinv).2,
         fun h => runOps_confirmed_fixed p l hinv h⟩

/-! Concrete fixtures used by the witness theorems. -/

/-- A concrete unimplemented status error. -/
def unimplementedErr : GoError := .grpcStatus .unimplemented "unknown service"

/-- A mock remote side that rejects `apiV1beta1` as unimplemented and answers
`apiV1alpha4` successfully. -/
def fallbackServer : apiVersion → AttemptResult Nat := fun v =>
  if v = apiV1beta1 then ⟨none, some unimplementedErr, 2⟩ else ⟨some 41, none, 3⟩

/-- A mock remote side answering every version successfully. -/
def okServer : apiVersion → AttemptResult Nat := fun _ => ⟨some 1, none, 2⟩

/-- Concrete gRPC method strings per version client. -/
def demoMethod : apiVersion → String := fun v => v ++ ".Node/NodePrepareResources"

/-- A Plugin with an established connection and no negotiated version. -/
def demoPlugin : Plugin :=
  { name := "driver-A", endpoint := "/run/plugins/driver-A.sock",
    conn := some 7, supportedAPI := apiUnknown, clientCallTimeout := 30 }

/-- A registered Plugin before its first call. -/
def coldPlugin : Plugin := freshPlugin "driver-A" "/run/plugins/driver-A.sock" 30

/-- A Plugin with a confirmed `apiV1alpha4` version. -/
def confirmedPlugin : Plugin := { demoPlugin with supportedAPI := apiV1alpha4 }

/-- A cold Plugin carrying a stale non-empty `supportedAPI` value. -/
def staleColdPlugin : Plugin := { coldPlugin with supportedAPI := apiV1alpha4 }

/-- A concrete dispatch invocation. -/
def demoOp : OpInput Nat :=
  { kind := .prepare, callerCtx := ⟨none⟩, now := 5, dial := .connected 9,
    method := demoMethod, server := fallbackServer }

/-- Witness for the Unknown-state fallback claim on a concrete Plugin and a
mock server that rejects `apiV1beta1`. -/
theorem unknown_version_fallback_dispatch_witness :
    demoPlugin.conn = some 7 ∧ demoPlugin.supportedAPI = apiUnknown ∧
    isUnimplemented (fallbackServer apiV1beta1).err = true ∧
    (NodePrepareResources demoPlugin ⟨some 100⟩ 5 (.connected 9) demoMethod
        fallbackServer).1.response = (fallbackServer apiV1alpha4).response := by
  refine ⟨rfl, rfl, by decide, ?_⟩
  exact ((unknown_version_fallback_dispatch demoPlugin 7 ⟨some 100⟩ 5 (.connected 9)
      demoMethod fallbackServer fallbackServer rfl rfl).2.1 (by decide)).2.1

/-- Witness for the version-settling claim: the fallback outcome confirms
`apiV1alpha4`. -/
theorem unknown_version_settling_witness :
    demoPlugin.conn = some 7 ∧ demoPlugin.supportedAPI = apiUnknown ∧
    isUnimplemented (fallbackServer apiV1beta1).err = true ∧
    isUnimplemented (fallbackServer apiV1alpha4).err = false ∧
    (nodeCall demoPlugin ⟨none⟩ 5 (.connected 9) demoMethod
        fallbackServer).2.supportedAPI = apiV1alpha4 := by
  refine ⟨rfl, rfl, by decide, by decide, ?_⟩
  exact ((unknown_version_settling demoPlugin 7 ⟨none⟩ 5 (.connected 9) demoMethod
      fallbackServer rfl rfl).2.1 (by decide) (by decide)).1

/-- Witness for the confirmed-version direct-dispatch claim: a
`apiV1alpha4`-confirmed Plugin issues exactly one `apiV1alpha4` attempt. -/
theorem confirmed_version_direct_dispatch_witness :
    confirmedPlugin.conn = some 7 ∧ confirmedPlugin.supportedAPI = apiV1alpha4 ∧
    (NodePrepareResources confirmedPlugin ⟨none⟩ 5 (.connected 9) demoMethod
        fallbackServer).1.attempts = [⟨apiV1alpha4, 7, ⟨some 35⟩⟩] := by
  refine ⟨rfl, rfl, ?_⟩
  have h := ((confirmed_version_direct_dispatch confirmedPlugin 7 ⟨none⟩ 5 (.connected 9)
      demoMethod fallbackServer fallbackServer rfl).2 rfl).1
  rw [h]
  rfl

/-- Witness for the single-dial claim on three serialized cold-start calls. -/
theorem cold_plugin_single_dial_witness :
    coldPlugin.conn = none ∧
    dialCount (runConns coldPlugin
      [.connected 7, .connected 8, .dialError (.plain "dial failed")]).1 = 1 := by
  refine ⟨rfl, ?_⟩
  exact (cold_plugin_single_dial coldPlugin 7
      [.connected 8, .dialError (.plain "dial failed")] rfl).1

/-- Witness for the version-transition claim at a concrete cold Plugin and a
concrete dispatch invocation. -/
theorem supportedAPI_monotone_witness :
    coldPlugin.inv ∧
    (((stepOp coldPlugin demoOp).supportedAPI = coldPlugin.supportedAPI ∨
       (coldPlugin.supportedAPI = apiUnknown ∧
         ((stepOp coldPlugin demoOp).supportedAPI = apiV1alpha4 ∨
          (stepOp coldPlugin demoOp).supportedAPI = apiV1beta1))) ∧
     (stepOp coldPlugin demoOp).inv ∧
     (coldPlugin.supportedAPI ≠ apiUnknown →
       (runOps coldPlugin [demoOp]).supportedAPI = coldPlugin.supportedAPI)) := by
  exact ⟨by decide, supportedAPI_monotone coldPlugin demoOp [demoOp] (by decide)⟩

/-- Witness for the connection-error claim: a failed dial is returned
unchanged and the Plugin is left untouched. -/
theorem conn_error_returned_unchanged_witness :
    coldPlugin.conn = none ∧
    NodePrepareResources coldPlugin ⟨none⟩ 5 (.dialError (.plain "dial failed"))
        demoMethod fallbackServer
      = (⟨none, some (.plain "dial failed"), [], []⟩, coldPlugin) := by
  refine ⟨rfl, ?_⟩
  exact ((conn_error_returned_unchanged coldPlugin (.plain "dial failed") 0 ⟨none⟩ 5
      demoMethod fallbackServer fallbackServer rfl).2.2
      (.dialError (.plain "dial failed")) (.plain "dial failed") rfl).1

/-- Witness for the call-deadline claim at a concrete attempt: the caller's
deadline 100 loses to the derived deadline 5 + 30 = 35. -/
theorem call_scoped_deadline_witness :
    (⟨apiV1beta1, 7, ⟨some 35⟩⟩ : RpcAttempt)
        ∈ (nodeCall demoPlugin ⟨some 100⟩ 5 (.connected 9) demoMethod okServer).1.attempts ∧
    (⟨apiV1beta1, 7, ⟨some 35⟩⟩ : RpcAttempt).ctx
        = Ctx.withTimeout ⟨some 100⟩ 5 demoPlugin.clientCallTimeout := by
  have hm : (⟨apiV1beta1, 7, ⟨some 35⟩⟩ : RpcAttempt)
      ∈ (nodeCall demoPlugin ⟨some 100⟩ 5 (.connected 9) demoMethod okServer).1.attempts := by
    decide
  exact ⟨hm, (call_scoped_deadline demoPlugin ⟨some 100⟩ 5 (.connected 9) demoMethod
      okServer _ hm).1⟩

/-- Witness for the metrics claim: the fallback run records two observations
with different status labels. -/
theorem metrics_observation_per_attempt_witness :
    demoPlugin.conn = some 7 ∧ demoPlugin.supportedAPI = apiUnknown ∧
    isUnimplemented (fallbackServer apiV1beta1).err = true ∧
    (fallbackServer apiV1alpha4).err = none ∧
    (nodeCall demoPlugin ⟨none⟩ 5 (.connected 9) demoMethod fallbackServer).1.metrics
      = [⟨"driver-A", demoMethod apiV1beta1, Code.unimplemented, 2⟩,
         ⟨"driver-A", demoMethod apiV1alpha4, Code.ok, 3⟩] := by
  refine ⟨rfl, rfl, by decide, rfl, ?_⟩
  have h := (metrics_observation_per_attempt demoPlugin ⟨none⟩ 5 (.connected 9)
      demoMethod fallbackServer).2 7 rfl rfl (by decide) rfl
  rw [h]
  rfl

/-- Witness for the connection-reuse claim on a Plugin with a stored
connection. -/
theorem getOrCreateGRPCConn_idempotent_witness :
    demoPlugin.conn = some 7 ∧
    getOrCreateGRPCConn demoPlugin (.connected 9)
      = (⟨.ok (7, demoPlugin.supportedAPI), false⟩, demoPlugin) := by
  exact ⟨rfl, (getOrCreateGRPCConn_idempotent demoPlugin 7 (.connected 9)
      (.connected 9)).1 rfl⟩

/-- Witness for the fresh-connection claim: even with a stale cached version,
the creation path hands back the empty version and the next dispatch probes
`apiV1beta1` first. -/
theorem fresh_conn_returns_unknown_version_witness :
    staleColdPlugin.conn = none ∧ staleColdPlugin.supportedAPI = apiV1alpha4 ∧
    getOrCreateGRPCConn staleColdPlugin (.connected 7)
      = (⟨.ok (7, apiUnknown), true⟩, { staleColdPlugin with conn := some 7 }) ∧
    ((nodeCall staleColdPlugin ⟨none⟩ 5 (.connected 7) demoMethod
        okServer).1.attempts.map RpcAttempt.version = [apiV1beta1] ∨
     (nodeCall staleColdPlugin ⟨none⟩ 5 (.connected 7) demoMethod
        okServer).1.attempts.map RpcAttempt.version = [apiV1beta1, apiV1alpha4]) := by
  refine ⟨rfl, rfl, ?_, ?_⟩
  · exact (fresh_conn_returns_unknown_version staleColdPlugin 7 (.connected 7) ⟨none⟩ 5
      demoMethod okServer).1 rfl
  · exact (fresh_conn_returns_unknown_version staleColdPlugin 7 (.connected 7) ⟨none⟩ 5
      demoMethod okServer).2.2 rfl

end DRA
